import Mathlib

/-
Verification of the DXGI desktop-duplication capture core
(src/windows-cap-python/src/lib.rs).

The Rust source is shallowly embedded: the hardware duplication call, the
D3D11 device calls (CreateTexture2D, Map) and the Python memoryview
constructor are external collaborators, modelled as explicit environment
records whose outcomes are inputs; everything the Rust file itself computes
(format mapping, crop-box construction, width/height subtraction, staging
descriptor construction, length checks, frame-object construction, drop)
is translated directly.  Machine integers are Nat with explicit bounds
where overflow matters; Rust panics (slice indexing out of bounds,
subtraction overflow, Option::expect) are explicit outcomes.
-/

namespace WindowsCapture

/-- DXGI format code of DXGI_FORMAT_B8G8R8A8_UNORM. -/
def DXGI_FORMAT_B8G8R8A8_UNORM : Nat := 87

/-- DXGI format code of DXGI_FORMAT_R8G8B8A8_UNORM. -/
def DXGI_FORMAT_R8G8B8A8_UNORM : Nat := 28

/-- DXGI format code of DXGI_FORMAT_R16G16B16A16_FLOAT. -/
def DXGI_FORMAT_R16G16B16A16_FLOAT : Nat := 10

/-- Numeric value of D3D11_USAGE_STAGING. -/
def D3D11_USAGE_STAGING : Nat := 3

/-- Numeric value of D3D11_CPU_ACCESS_READ (0x20000). -/
def D3D11_CPU_ACCESS_READ : Nat := 131072

/-- usize::MAX on the 64-bit targets the extension is built for. -/
def USIZE_MAX : Nat := 2 ^ 64 - 1

/-- isize::MAX, the bound checked by buffer_view before building a memoryview. -/
def ISIZE_MAX : Nat := 2 ^ 63 - 1

/-- windows_capture::settings::ColorFormat, the closed set of supported formats. -/
inductive ColorFormat where
  | Bgra8
  | Rgba8
  | Rgba16F
  deriving DecidableEq, Repr

/-- Every PyException raised by lib.rs, tagged by the construction site of its
message (each site uses a distinct format string, so the tagging is faithful);
the String payload is the dynamic part interpolated into the message. -/
inductive PyErr where
  | monitorResolve (index : Nat) (e : String)
  | primaryMonitor (e : String)
  | sessionCreate (e : String)
  | unsupportedFormat (fmt : Nat)
  | stagingCreate (e : String)
  | mapFailed (e : String)
  | rowPitchConv
  | heightConv
  | sizeOverflow
  | accessLost
  | acquireOther (e : String)
  | recreateFailed (e : String)
  | frameTooLarge
  | memoryViewNull
  deriving DecidableEq, Repr

/-- The Rust panics reachable in acquire_next_frame: out-of-bounds Vec indexing
(xywh[0] .. xywh[3]), u32 subtraction overflow (detected by debug assertions;
a release build wraps instead, see u32sub), and the .expect on
CreateTexture2D returning Ok without a texture. -/
inductive PanicKind where
  | indexOutOfBounds
  | subOverflow
  | expectTexture
  deriving DecidableEq, Repr

/-- D3D11_TEXTURE2D_DESC, with SampleDesc flattened into Count/Quality. -/
structure D3D11TextureDesc where
  Width : Nat
  Height : Nat
  MipLevels : Nat
  ArraySize : Nat
  Format : Nat
  SampleCount : Nat
  SampleQuality : Nat
  Usage : Nat
  BindFlags : Nat
  CPUAccessFlags : Nat
  MiscFlags : Nat
  deriving DecidableEq, Repr

/-- D3D11_BOX, the source sub-rectangle passed to CopySubresourceRegion. -/
structure D3D11Box where
  left : Nat
  top : Nat
  front : Nat
  right : Nat
  bottom : Nat
  back : Nat
  deriving DecidableEq, Repr

/-- NativeDxgiDuplication::color_format_to_str. -/
def color_format_to_str : ColorFormat → String
  | .Bgra8 => "bgra8"
  | .Rgba8 => "rgba8"
  | .Rgba16F => "rgba16f"

/-- NativeDxgiDuplication::bytes_per_pixel. -/
def bytes_per_pixel : ColorFormat → Nat
  | .Bgra8 => 4
  | .Rgba8 => 4
  | .Rgba16F => 8

/-- NativeDxgiDuplication::color_format_from_dxgi: the match over DXGI_FORMAT,
with the catch-all arm raising the unsupported-format PyException. -/
def color_format_from_dxgi (format : Nat) : Except PyErr ColorFormat :=
  if format = DXGI_FORMAT_B8G8R8A8_UNORM then .ok .Bgra8
  else if format = DXGI_FORMAT_R8G8B8A8_UNORM then .ok .Rgba8
  else if format = DXGI_FORMAT_R16G16B16A16_FLOAT then .ok .Rgba16F
  else .error (.unsupportedFormat format)

/-- NativeDxgiDuplicationFrame: the mapped-frame object.  The COM handles
(device context, staging texture) are opaque and carry no data the claims
depend on, so they are omitted; ptr is the mapped pData address as a Nat
(0 models the null pointer written by drop). -/
structure NativeDxgiDuplicationFrame where
  ptr : Nat
  len : Nat
  width : Nat
  height : Nat
  bytes_per_pixel : Nat
  row_pitch : Nat
  color_format : String
  mapped : Bool
  deriving DecidableEq, Repr

/-- GPU-side effects issued by the embedded code, in program order; used to
state that a path performs no allocation, or unmaps at most once. -/
inductive GpuOp where
  | createTexture2D (desc : D3D11TextureDesc)
  | copySubresourceRegion (box : D3D11Box)
  | map
  | unmap
  deriving DecidableEq, Repr

/-- Outcome of the external device.CreateTexture2D call: an HRESULT error
(with its message), Ok with no texture (which the source turns into an
.expect panic), or Ok with a texture. -/
inductive CreateTexResult where
  | errMsg (e : String)
  | okNone
  | okSome
  deriving DecidableEq, Repr

/-- The fields of D3D11_MAPPED_SUBRESOURCE the source reads. -/
structure MappedSubresource where
  RowPitch : Nat
  pData : Nat
  deriving DecidableEq, Repr

/-- External D3D11 device behaviour for one acquisition: what CreateTexture2D
returns for a given descriptor, and what Map returns for the staging texture. -/
structure DeviceEnv where
  createTexture2D : D3D11TextureDesc → CreateTexResult
  mapStaging : Except String MappedSubresource

/-- Outcome of self.duplication.acquire_next_frame(timeout_ms), the external
duplication-API call: a raw frame (represented by its texture descriptor),
Err(Timeout), Err(AccessLost), or any other duplication error. -/
inductive HwOutcome where
  | frame (texture_desc : D3D11TextureDesc)
  | timeout
  | accessLost
  | other (e : String)
  deriving DecidableEq, Repr

/-- Result of the embedded acquire_next_frame: PyResult Option frame, plus the
panic outcomes that abort the interpreter-visible computation. -/
inductive AcquireOutcome where
  | ok (f : Option NativeDxgiDuplicationFrame)
  | err (e : PyErr)
  | panic (p : PanicKind)
  deriving DecidableEq, Repr

/-- Rust u32 subtraction a - b with its overflow condition explicit: some
(a - b) when b ≤ a, none when the subtraction underflows.  An underflow is
an arithmetic-overflow defect in Rust: with overflow checks (debug) the
program panics; a release build wraps modulo 2^32, producing a width or
height of at least 2^31 for i32-ranged crop inputs.  The none case is
surfaced as PanicKind.subOverflow. -/
def u32sub (a b : Nat) : Option Nat :=
  if b ≤ a then some (a - b) else none

/-- The default source box (0, 0, 0, Width, Height, 1) covering the whole
captured frame. -/
def fullBox (texture_desc : D3D11TextureDesc) : D3D11Box :=
  { left := 0, top := 0, front := 0,
    right := texture_desc.Width, bottom := texture_desc.Height, back := 1 }

/-- The crop handling of acquire_next_frame, lines 115-122: if an area list is
supplied and every element is non-negative, the first four elements overwrite
left/top/right/bottom (indexing xywh[0] .. xywh[3] panics when the list is
shorter than four); otherwise the box is left at the full frame. -/
def applyArea (box : D3D11Box) (area : Option (List Int)) :
    Except PanicKind D3D11Box :=
  match area with
  | none => .ok box
  | some xywh =>
    if xywh.all (fun x => decide (0 ≤ x)) then
      match xywh with
      | a :: b :: c :: d :: _ =>
        .ok { box with left := a.toNat, top := b.toNat,
                       right := c.toNat, bottom := d.toNat }
      | _ => .error .indexOutOfBounds
    else .ok box

/-- The staging-texture descriptor built at lines 127-138 for a given source
format and computed crop width/height. -/
def mkStagingDesc (format width height : Nat) : D3D11TextureDesc :=
  { Width := width, Height := height, MipLevels := 1, ArraySize := 1,
    Format := format, SampleCount := 1, SampleQuality := 0,
    Usage := D3D11_USAGE_STAGING, BindFlags := 0,
    CPUAccessFlags := D3D11_CPU_ACCESS_READ, MiscFlags := 0 }

/-- NativeDxgiDuplication::acquire_next_frame, as a function of the external
outcomes (hardware result hw, device behaviour env) and the Python arguments
(timeout_ms, area).  Returns the interpreter-visible outcome together with
the list of GPU operations issued, in program order.  timeout_ms is consumed
only by the external duplication call, whose outcome hw already reflects it. -/
def acquireNextFrame (hw : HwOutcome) (env : DeviceEnv) (timeout_ms : Nat)
    (area : Option (List Int)) : AcquireOutcome × List GpuOp :=
  match hw with
  | .timeout => (.ok none, [])
  | .accessLost => (.err .accessLost, [])
  | .other e => (.err (.acquireOther e), [])
  | .frame texture_desc =>
    match color_format_from_dxgi texture_desc.Format with
    | .error e => (.err e, [])
    | .ok color_format =>
      match applyArea (fullBox texture_desc) area with
      | .error p => (.panic p, [])
      | .ok src_box =>
        match u32sub src_box.right src_box.left with
        | none => (.panic .subOverflow, [])
        | some width =>
          match u32sub src_box.bottom src_box.top with
          | none => (.panic .subOverflow, [])
          | some height =>
            let staging_desc := mkStagingDesc texture_desc.Format width height
            match env.createTexture2D staging_desc with
            | .errMsg e => (.err (.stagingCreate e), [.createTexture2D staging_desc])
            | .okNone => (.panic .expectTexture, [.createTexture2D staging_desc])
            | .okSome =>
              match env.mapStaging with
              | .error e =>
                (.err (.mapFailed e),
                 [.createTexture2D staging_desc,
                  .copySubresourceRegion src_box, .map])
              | .ok mapped =>
                if mapped.RowPitch ≤ USIZE_MAX then
                  if height ≤ USIZE_MAX then
                    if mapped.RowPitch * height ≤ USIZE_MAX then
                      (.ok (some
                        { ptr := mapped.pData,
                          len := mapped.RowPitch * height,
                          width := width, height := height,
                          bytes_per_pixel := bytes_per_pixel color_format,
                          row_pitch := mapped.RowPitch,
                          color_format := color_format_to_str color_format,
                          mapped := true }),
                       [.createTexture2D staging_desc,
                        .copySubresourceRegion src_box, .map])
                    else
                      (.err .sizeOverflow,
                       [.createTexture2D staging_desc,
                        .copySubresourceRegion src_box, .map])
                  else
                    (.err .heightConv,
                     [.createTexture2D staging_desc,
                      .copySubresourceRegion src_box, .map])
                else
                  (.err .rowPitchConv,
                   [.createTexture2D staging_desc,
                    .copySubresourceRegion src_box, .map])

/-- Drop for NativeDxgiDuplicationFrame, lines 249-260: if still mapped, issue
Unmap, clear the mapped flag, null the pointer and zero the length; otherwise
do nothing. -/
def dropFrame (f : NativeDxgiDuplicationFrame) :
    NativeDxgiDuplicationFrame × List GpuOp :=
  if f.mapped then
    ({ f with mapped := false, ptr := 0, len := 0 }, [.unmap])
  else (f, [])

/-- Iterated invocation of the teardown path, collecting all GPU operations
issued over n runs. -/
def dropTimes : Nat → NativeDxgiDuplicationFrame →
    NativeDxgiDuplicationFrame × List GpuOp
  | 0, f => (f, [])
  | n + 1, f =>
    let fd := dropFrame f
    let rest := dropTimes n fd.1
    (rest.1, fd.2 ++ rest.2)

/-- buffer_ptr accessor (line 290). -/
def NativeDxgiDuplicationFrame.buffer_ptr (f : NativeDxgiDuplicationFrame) : Nat :=
  f.ptr

/-- buffer_len accessor (line 294). -/
def NativeDxgiDuplicationFrame.buffer_len (f : NativeDxgiDuplicationFrame) : Nat :=
  f.len

/-- to_bytes (line 298): slice::from_raw_parts(self.ptr, self.len).to_vec(),
reading len bytes starting at ptr from the process memory mem.  Note the
source performs no check of the mapped flag before reading. -/
def NativeDxgiDuplicationFrame.to_bytes (f : NativeDxgiDuplicationFrame)
    (mem : Nat → Nat) : List Nat :=
  (List.range f.len).map (fun i => mem (f.ptr + i))

/-- buffer_view (lines 302-312): checks len fits an isize, asks the external
memoryview constructor (viewCreated says whether it returned non-null), and on
success exposes exactly (ptr, len).  No check of the mapped flag is made. -/
def NativeDxgiDuplicationFrame.buffer_view (f : NativeDxgiDuplicationFrame)
    (viewCreated : Bool) : Except PyErr (Nat × Nat) :=
  if f.len ≤ ISIZE_MAX then
    if viewCreated then .ok (f.ptr, f.len) else .error .memoryViewNull
  else .error .frameTooLarge

/-- The session object: the live duplication handle and the monitor handle,
both opaque and represented by Nat identifiers. -/
structure NativeDxgiDuplication where
  duplication : Nat
  monitor : Nat
  deriving DecidableEq, Repr

/-- External monitor-resolution and duplication-creation behaviour:
Monitor::from_index, Monitor::primary and DxgiDuplicationApi::new. -/
structure SessionEnv where
  from_index : Nat → Except String Nat
  primaryMon : Except String Nat
  newDuplication : Nat → Except String Nat

/-- NativeDxgiDuplication::new_duplication (lines 40-44). -/
def new_duplication (env : SessionEnv) (monitor : Nat) :
    Except String (Nat × Nat) :=
  match env.newDuplication monitor with
  | .error e => .error e
  | .ok d => .ok (monitor, d)

/-- NativeDxgiDuplication::switch_monitor (lines 196-208): resolve the monitor,
build the new duplication, and only then assign both fields.  Returns the new
session state paired with the raised exception, if any. -/
def switch_monitor (env : SessionEnv) (s : NativeDxgiDuplication)
    (monitor_index : Nat) : NativeDxgiDuplication × Option PyErr :=
  match env.from_index monitor_index with
  | .error e => (s, some (.monitorResolve monitor_index e))
  | .ok monitor =>
    match new_duplication env monitor with
    | .error e => (s, some (.sessionCreate e))
    | .ok md => ({ duplication := md.2, monitor := md.1 }, none)

/-- NativeDxgiDuplication::recreate (lines 46-50 and 210-214): rebuild the
duplication for the current monitor; the monitor field is unchanged. -/
def recreate (env : SessionEnv) (s : NativeDxgiDuplication) :
    NativeDxgiDuplication × Option PyErr :=
  match new_duplication env s.monitor with
  | .error e => (s, some (.recreateFailed e))
  | .ok md => ({ s with duplication := md.2 }, none)

/-- A concrete 1920x1080 BGRA8 source frame descriptor, used by witnesses. -/
def desc0 : D3D11TextureDesc :=
  { Width := 1920, Height := 1080, MipLevels := 1, ArraySize := 1,
    Format := DXGI_FORMAT_B8G8R8A8_UNORM, SampleCount := 1, SampleQuality := 0,
    Usage := 0, BindFlags := 0, CPUAccessFlags := 0, MiscFlags := 0 }

/-- A source frame descriptor with an unsupported DXGI format (DXGI_FORMAT code
99 is outside the supported set), used by witnesses. -/
def descBad : D3D11TextureDesc :=
  { Width := 1920, Height := 1080, MipLevels := 1, ArraySize := 1,
    Format := 99, SampleCount := 1, SampleQuality := 0,
    Usage := 0, BindFlags := 0, CPUAccessFlags := 0, MiscFlags := 0 }

/-- A concrete device behaviour: CreateTexture2D rejects zero-sized textures
(as D3D11 does, with E_INVALIDARG) and succeeds otherwise; Map succeeds with
row pitch 7680 and a non-null data pointer. -/
def envOk : DeviceEnv :=
  { createTexture2D := fun d =>
      if d.Width = 0 || d.Height = 0 then .errMsg "E_INVALIDARG" else .okSome,
    mapStaging := .ok { RowPitch := 7680, pData := 4096 } }

/-- The only error color_format_from_dxgi can produce is the
unsupported-format exception for the offending format code. -/
theorem color_format_from_dxgi_error_eq (f : Nat) (e : PyErr)
    (h : color_format_from_dxgi f = .error e) : e = .unsupportedFormat f := by
  unfold color_format_from_dxgi at h
  split at h <;> [skip; split at h] <;> [skip; skip; split at h] <;> simp_all

/-- The frame branch of acquire_next_frame never raises the access-lost
exception: its own errors are the unsupported-format, staging-creation,
map, conversion and overflow exceptions. -/
theorem frame_no_accessLost (d : D3D11TextureDesc) (env : DeviceEnv)
    (tm : Nat) (area : Option (List Int)) :
    (acquireNextFrame (.frame d) env tm area).1 ≠ .err .accessLost := by
  unfold acquireNextFrame
  cases hc : color_format_from_dxgi d.Format with
  | error e =>
    have he := color_format_from_dxgi_error_eq _ _ hc
    subst he
    simp [hc]
  | ok cf =>
    cases ha : applyArea (fullBox d) area with
    | error p => simp [hc, ha]
    | ok box =>
      cases hw : u32sub box.right box.left with
      | none => simp [hc, ha, hw]
      | some w =>
        cases hh : u32sub box.bottom box.top with
        | none => simp [hc, ha, hw, hh]
        | some ht =>
          cases hct : env.createTexture2D (mkStagingDesc d.Format w ht) with
          | errMsg e => simp [hc, ha, hw, hh, hct]
          | okNone => simp [hc, ha, hw, hh, hct]
          | okSome =>
            cases hm : env.mapStaging with
            | error e => simp [hc, ha, hw, hh, hct, hm]
            | ok m =>
              by_cases h1 : m.RowPitch ≤ USIZE_MAX <;>
              by_cases h2 : ht ≤ USIZE_MAX <;>
              by_cases h3 : m.RowPitch * ht ≤ USIZE_MAX <;>
              simp [hc, ha, hw, hh, hct, hm, h1, h2, h3]

/-- Claim C2: whenever the hardware reports no new frame within the timeout
(Err(Timeout) from the duplication API), acquire_next_frame returns Ok(None)
— the empty success — and issues no GPU operation; it never returns an
error value on this path. -/
theorem C2_timeout_returns_none (env : DeviceEnv) (tm : Nat)
    (area : Option (List Int)) :
    acquireNextFrame .timeout env tm area = (.ok none, []) := rfl

/-- Claim C3: the access-lost outcome is surfaced as the dedicated
access-lost exception (whose message directs the caller to recreate), that
exception is produced exactly when the hardware invalidates the session (no
other failure path raises it), and the outcome differs from the timeout
outcome Ok(None). -/
theorem C3_accessLost_distinct (hw : HwOutcome) (env : DeviceEnv) (tm : Nat)
    (area : Option (List Int)) :
    ((acquireNextFrame hw env tm area).1 = .err .accessLost ↔ hw = .accessLost)
    ∧ (acquireNextFrame .accessLost env tm area).1
        ≠ (acquireNextFrame .timeout env tm area).1 := by
  refine ⟨⟨fun h => ?_, fun h => by subst h; rfl⟩, by simp [acquireNextFrame]⟩
  cases hw with
  | accessLost => rfl
  | timeout => simp [acquireNextFrame] at h
  | other e => simp [acquireNextFrame] at h
  | frame d => exact absurd h (frame_no_accessLost d env tm area)

/-- If any element of the supplied area list is negative, the all-nonnegative
guard fails and the crop is skipped: the source box is returned unchanged. -/
theorem applyArea_negative (box : D3D11Box) (xs : List Int)
    (h : ∃ x ∈ xs, x < 0) : applyArea box (some xs) = .ok box := by
  obtain ⟨x, hx, hneg⟩ := h
  have hall : xs.all (fun y => decide (0 ≤ y)) = false := by
    cases hall : xs.all (fun y => decide (0 ≤ y)) with
    | false => rfl
    | true =>
      rw [List.all_eq_true] at hall
      have := hall x hx
      simp at this
      omega
  unfold applyArea
  simp [hall]

/-- acquire_next_frame on a raw frame depends on the area argument only
through the crop handling: equal crop results give equal outcomes. -/
theorem acquire_area_congr (d : D3D11TextureDesc) (env : DeviceEnv) (tm : Nat)
    (a1 a2 : Option (List Int))
    (h : applyArea (fullBox d) a1 = applyArea (fullBox d) a2) :
    acquireNextFrame (.frame d) env tm a1 = acquireNextFrame (.frame d) env tm a2 := by
  simp only [acquireNextFrame]
  rw [h]

/-- Claim C4: switch_monitor resolves the new monitor and opens the new
duplication handle before assigning either field; every failure leaves the
session state exactly as it was (no partial mutation), and on success both
the monitor handle and the duplication handle are replaced by the new ones. -/
theorem C4_switch_monitor_atomic (env : SessionEnv)
    (s : NativeDxgiDuplication) (idx : Nat) :
    ((switch_monitor env s idx).2.isSome → (switch_monitor env s idx).1 = s)
    ∧ (∀ m dup, env.from_index idx = .ok m → env.newDuplication m = .ok dup →
        switch_monitor env s idx = ({ duplication := dup, monitor := m }, none)) := by
  constructor
  · intro hfail
    unfold switch_monitor at *
    cases hi : env.from_index idx with
    | error e => simp [hi]
    | ok m =>
      cases hd : new_duplication env m with
      | error e => simp [hi, hd]
      | ok md =>
        rw [hi] at hfail
        simp only [hd] at hfail
        simp at hfail
  · intro m dup hi hd
    unfold switch_monitor new_duplication
    simp [hi, hd]

/-- Claim C4 witness: with a monitor table that has no entry for index 5, the
call fails and the session state (duplication handle 1, monitor handle 2)
is returned untouched. -/
theorem C4_switch_monitor_atomic_witness :
    (switch_monitor
      { from_index := fun i => if i = 0 then .ok 10 else .error "no monitor",
        primaryMon := .ok 10,
        newDuplication := fun m => .ok (m + 100) }
      { duplication := 1, monitor := 2 } 5).1
      = { duplication := 1, monitor := 2 } :=
  (C4_switch_monitor_atomic _ _ 5).1 (by decide)

/-- Claim C5: if any coordinate of the supplied crop list is negative, the
crop is ignored: the source box stays the full frame (0, 0, Width, Height)
and the whole acquisition behaves exactly as if no crop had been supplied —
in particular the fallback raises no error of its own. -/
theorem C5_negative_crop_falls_back_to_full_frame (hw : HwOutcome)
    (env : DeviceEnv) (tm : Nat) (d : D3D11TextureDesc) (xs : List Int)
    (hneg : ∃ x ∈ xs, x < 0) :
    acquireNextFrame hw env tm (some xs) = acquireNextFrame hw env tm none
    ∧ applyArea (fullBox d) (some xs) = .ok (fullBox d) := by
  refine ⟨?_, applyArea_negative _ _ hneg⟩
  cases hw with
  | timeout => rfl
  | accessLost => rfl
  | other e => rfl
  | frame d2 =>
    exact acquire_area_congr d2 env tm _ _ (applyArea_negative _ _ hneg)

/-- Claim C5 witness: the crop list [0, 0, -1, 5] (third value negative) is
ignored; acquisition on a 1920x1080 BGRA8 frame behaves as with no crop. -/
theorem C5_negative_crop_falls_back_to_full_frame_witness :
    acquireNextFrame (.frame desc0) envOk 16 (some [0, 0, -1, 5])
      = acquireNextFrame (.frame desc0) envOk 16 none
    ∧ applyArea (fullBox desc0) (some [0, 0, -1, 5]) = .ok (fullBox desc0) :=
  C5_negative_crop_falls_back_to_full_frame (.frame desc0) envOk 16 desc0
    [0, 0, -1, 5] ⟨-1, by simp, by decide⟩

/-- When every element of the list passes the non-negativity guard and at
least four elements are present, the first four overwrite the box bounds. -/
theorem applyArea_four (box : D3D11Box) (l t r b : Int) (rest : List Int)
    (hall : (l :: t :: r :: b :: rest).all (fun x => decide (0 ≤ x)) = true) :
    applyArea box (some (l :: t :: r :: b :: rest)) =
      .ok { box with left := l.toNat, top := t.toNat,
                     right := r.toNat, bottom := b.toNat } := by
  unfold applyArea
  simp [hall]

/-- Inversion of a successful acquisition: if the frame branch returns
Ok(Some f) then the format mapping, the crop box, both subtractions and the
map all succeeded, and f is exactly the record built at lines 174-184. -/
theorem acquire_success_inv (d : D3D11TextureDesc) (env : DeviceEnv) (tm : Nat)
    (area : Option (List Int)) (cf : ColorFormat) (f : NativeDxgiDuplicationFrame)
    (hc : color_format_from_dxgi d.Format = .ok cf)
    (hres : (acquireNextFrame (.frame d) env tm area).1 = .ok (some f)) :
    ∃ box w ht m,
      applyArea (fullBox d) area = .ok box ∧
      u32sub box.right box.left = some w ∧
      u32sub box.bottom box.top = some ht ∧
      env.mapStaging = .ok m ∧
      f = { ptr := m.pData, len := m.RowPitch * ht, width := w, height := ht,
            bytes_per_pixel := bytes_per_pixel cf, row_pitch := m.RowPitch,
            color_format := color_format_to_str cf, mapped := true } := by
  cases ha : applyArea (fullBox d) area with
  | error p => simp [acquireNextFrame, hc, ha] at hres
  | ok box =>
    cases hw : u32sub box.right box.left with
    | none => simp [acquireNextFrame, hc, ha, hw] at hres
    | some w =>
      cases hh : u32sub box.bottom box.top with
      | none => simp [acquireNextFrame, hc, ha, hw, hh] at hres
      | some ht =>
        cases hct : env.createTexture2D (mkStagingDesc d.Format w ht) with
        | errMsg e => simp [acquireNextFrame, hc, ha, hw, hh, hct] at hres
        | okNone => simp [acquireNextFrame, hc, ha, hw, hh, hct] at hres
        | okSome =>
          cases hm : env.mapStaging with
          | error e => simp [acquireNextFrame, hc, ha, hw, hh, hct, hm] at hres
          | ok m =>
            by_cases h1 : m.RowPitch ≤ USIZE_MAX
            · by_cases h2 : ht ≤ USIZE_MAX
              · by_cases h3 : m.RowPitch * ht ≤ USIZE_MAX
                · have hval : (acquireNextFrame (.frame d) env tm area).1
                      = .ok (some
                        { ptr := m.pData, len := m.RowPitch * ht, width := w,
                          height := ht, bytes_per_pixel := bytes_per_pixel cf,
                          row_pitch := m.RowPitch,
                          color_format := color_format_to_str cf,
                          mapped := true }) := by
                    simp [acquireNextFrame, hc, ha, hw, hh, hct, hm, h1, h2, h3]
                  rw [hval] at hres
                  injection hres with hres
                  injection hres with hres
                  exact ⟨box, w, ht, m, rfl, hw, hh, rfl, hres.symm⟩
                · simp [acquireNextFrame, hc, ha, hw, hh, hct, hm, h1, h2, h3] at hres
              · simp [acquireNextFrame, hc, ha, hw, hh, hct, hm, h1, h2] at hres
            · simp [acquireNextFrame, hc, ha, hw, hh, hct, hm, h1] at hres

/-- Claim C1 (amended): for a crop with all four coordinates non-negative,
if right is strictly less than left (or bottom strictly less than top) the
u32 width/height subtraction underflows — an arithmetic-overflow defect
that panics under overflow checks and wraps past 2^31 in a wrapping build —
rather than surfacing a transfer error; if the subtractions do not
underflow but the rectangle is degenerate (right = left or bottom = top),
a zero-sized staging texture is requested, and when the device rejects it
the call surfaces the staging-creation error with no frame constructed. -/
theorem C1_degenerate_crop_guard (d : D3D11TextureDesc) (env : DeviceEnv)
    (tm : Nat) (cf : ColorFormat) (l t r b : Int) (e : String)
    (hfmt : color_format_from_dxgi d.Format = .ok cf)
    (h0 : 0 ≤ l) (h1 : 0 ≤ t) (h2 : 0 ≤ r) (h3 : 0 ≤ b) :
    (r < l →
      (acquireNextFrame (.frame d) env tm (some [l, t, r, b])).1
        = .panic .subOverflow)
    ∧ (l ≤ r → b < t →
        (acquireNextFrame (.frame d) env tm (some [l, t, r, b])).1
          = .panic .subOverflow)
    ∧ (l ≤ r → t ≤ b →
        env.createTexture2D
            (mkStagingDesc d.Format (r.toNat - l.toNat) (b.toNat - t.toNat))
          = .errMsg e →
        acquireNextFrame (.frame d) env tm (some [l, t, r, b])
          = (.err (.stagingCreate e),
             [.createTexture2D
                (mkStagingDesc d.Format (r.toNat - l.toNat) (b.toNat - t.toNat))])) := by
  have hall : ([l, t, r, b]).all (fun x => decide (0 ≤ x)) = true := by
    simp [h0, h1, h2, h3]
  have harea := applyArea_four (fullBox d) l t r b [] hall
  refine ⟨fun hrl => ?_, fun hlr hbt => ?_, fun hlr htb hct => ?_⟩
  · have hsub : u32sub r.toNat l.toNat = none := by
      simp only [u32sub]
      rw [if_neg]
      omega
    simp [acquireNextFrame, hfmt, harea, hsub]
  · have hsub1 : u32sub r.toNat l.toNat = some (r.toNat - l.toNat) := by
      simp only [u32sub]
      rw [if_pos]
      omega
    have hsub2 : u32sub b.toNat t.toNat = none := by
      simp only [u32sub]
      rw [if_neg]
      omega
    simp [acquireNextFrame, hfmt, harea, hsub1, hsub2]
  · have hsub1 : u32sub r.toNat l.toNat = some (r.toNat - l.toNat) := by
      simp only [u32sub]
      rw [if_pos]
      omega
    have hsub2 : u32sub b.toNat t.toNat = some (b.toNat - t.toNat) := by
      simp only [u32sub]
      rw [if_pos]
      omega
    simp [acquireNextFrame, hfmt, harea, hsub1, hsub2, hct]

/-- Claim C1 counterexample: with the crop (left 5, top 0, right 3, bottom 10)
— all coordinates non-negative, right less than left — the width computation
3 - 5 underflows u32 subtraction, so the call hits an arithmetic-overflow
defect (modelled as the panic outcome) instead of surfacing a transfer
error as the claim states. -/
theorem C1_counterexample_underflow :
    (acquireNextFrame (.frame desc0) envOk 16 (some [5, 0, 3, 10])).1
      = .panic .subOverflow := by decide

/-- Claim C1 witness: the degenerate crop (0, 0, 0, 10) — right equal to
left — requests a 0 x 10 staging texture, which the device rejects, and the
call surfaces the staging-creation error with no frame and no further GPU
operation. -/
theorem C1_degenerate_crop_guard_witness :
    acquireNextFrame (.frame desc0) envOk 16 (some [0, 0, 0, 10])
      = (.err (.stagingCreate "E_INVALIDARG"),
         [.createTexture2D (mkStagingDesc desc0.Format 0 10)]) :=
  (C1_degenerate_crop_guard desc0 envOk 16 .Bgra8 0 0 0 10 "E_INVALIDARG"
    rfl (by decide) (by decide) (by decide) (by decide)).2.2
    (by decide) (by decide) rfl

/-- Claim C6: on every successful acquisition with a crop whose coordinates
are all non-negative and satisfy left < right and top < bottom, the returned
frame has width right - left and height bottom - top, with no clamping
against the source frame size (the source descriptor d is arbitrary and
unconstrained by the crop). -/
theorem C6_crop_dimensions (d : D3D11TextureDesc) (env : DeviceEnv) (tm : Nat)
    (l t r b : Int) (f : NativeDxgiDuplicationFrame)
    (h0 : 0 ≤ l) (h1 : 0 ≤ t) (h2 : 0 ≤ r) (h3 : 0 ≤ b)
    (hlr : l < r) (htb : t < b)
    (hres : (acquireNextFrame (.frame d) env tm (some [l, t, r, b])).1
      = .ok (some f)) :
    f.width = (r - l).toNat ∧ f.height = (b - t).toNat := by
  have hall : ([l, t, r, b]).all (fun x => decide (0 ≤ x)) = true := by
    simp [h0, h1, h2, h3]
  have harea := applyArea_four (fullBox d) l t r b [] hall
  cases hc : color_format_from_dxgi d.Format with
  | error e => simp [acquireNextFrame, hc] at hres
  | ok cf =>
    obtain ⟨box, w, ht, m, ha, hw, hh, hm, hf⟩ :=
      acquire_success_inv d env tm (some [l, t, r, b]) cf f hc hres
    rw [harea] at ha
    injection ha with ha
    subst ha
    simp only [hf]
    constructor
    · have : u32sub r.toNat l.toNat = some (r.toNat - l.toNat) := by
        simp only [u32sub]
        rw [if_pos]
        omega
      simp only [this] at hw
      injection hw with hw
      simp only [← hw]
      omega
    · have : u32sub b.toNat t.toNat = some (b.toNat - t.toNat) := by
        simp only [u32sub]
        rw [if_pos]
        omega
      simp only [this] at hh
      injection hh with hh
      simp only [← hh]
      omega

/-- The frame produced by the witness acquisition with crop (10, 10, 110, 60)
under the envOk device behaviour. -/
def frame6 : NativeDxgiDuplicationFrame :=
  { ptr := 4096, len := 384000, width := 100, height := 50,
    bytes_per_pixel := 4, row_pitch := 7680, color_format := "bgra8",
    mapped := true }

/-- Claim C6 witness: cropping the 1920x1080 frame with (10, 10, 110, 60)
yields a frame with width 100 and height 50. -/
theorem C6_crop_dimensions_witness : frame6.width = 100 ∧ frame6.height = 50 := by
  simpa using
    C6_crop_dimensions desc0 envOk 16 10 10 110 60 frame6
      (by decide) (by decide) (by decide) (by decide) (by decide) (by decide)
      (by decide)

/-- Claim C7: the pixel-format table maps the three supported DXGI formats to
the tags bgra8, rgba8, rgba16f with 4, 4 and 8 bytes per pixel; any other
hardware format makes acquire_next_frame fail with the unsupported-format
exception while issuing no GPU operation (so before any staging texture is
created) and constructing no frame object; and a successfully constructed
frame from a bgra8 source reports the bgra8 tag with 4 bytes per pixel. -/
theorem C7_pixel_format_table (env : DeviceEnv) (tm : Nat)
    (area : Option (List Int)) (d : D3D11TextureDesc) :
    color_format_from_dxgi DXGI_FORMAT_B8G8R8A8_UNORM = .ok .Bgra8
    ∧ color_format_from_dxgi DXGI_FORMAT_R8G8B8A8_UNORM = .ok .Rgba8
    ∧ color_format_from_dxgi DXGI_FORMAT_R16G16B16A16_FLOAT = .ok .Rgba16F
    ∧ color_format_to_str .Bgra8 = "bgra8"
    ∧ bytes_per_pixel .Bgra8 = 4
    ∧ bytes_per_pixel .Rgba8 = 4
    ∧ bytes_per_pixel .Rgba16F = 8
    ∧ (d.Format ≠ DXGI_FORMAT_B8G8R8A8_UNORM →
       d.Format ≠ DXGI_FORMAT_R8G8B8A8_UNORM →
       d.Format ≠ DXGI_FORMAT_R16G16B16A16_FLOAT →
       acquireNextFrame (.frame d) env tm area
         = (.err (.unsupportedFormat d.Format), []))
    ∧ (d.Format = DXGI_FORMAT_B8G8R8A8_UNORM →
       ∀ f, (acquireNextFrame (.frame d) env tm area).1 = .ok (some f) →
         f.color_format = "bgra8" ∧ f.bytes_per_pixel = 4) := by
  refine ⟨rfl, rfl, rfl, rfl, rfl, rfl, rfl, fun hn1 hn2 hn3 => ?_, fun hb f hres => ?_⟩
  · have hc : color_format_from_dxgi d.Format = .error (.unsupportedFormat d.Format) := by
      unfold color_format_from_dxgi
      rw [if_neg hn1, if_neg hn2, if_neg hn3]
    simp [acquireNextFrame, hc]
  · have hc : color_format_from_dxgi d.Format = .ok .Bgra8 := by
      unfold color_format_from_dxgi
      rw [if_pos hb]
    obtain ⟨box, w, ht, m, ha, hw, hh, hm, hf⟩ :=
      acquire_success_inv d env tm area .Bgra8 f hc hres
    subst hf
    exact ⟨rfl, rfl⟩

/-- Claim C7 witness: a frame reporting DXGI format 99 — outside the
supported set — is rejected with the unsupported-format exception, with no
GPU operation issued and no frame constructed. -/
theorem C7_pixel_format_table_witness :
    acquireNextFrame (.frame descBad) envOk 16 none
      = (.err (.unsupportedFormat descBad.Format), []) :=
  (C7_pixel_format_table envOk 16 none descBad).2.2.2.2.2.2.2.1
    (by decide) (by decide) (by decide)

/-- Claim C10: when a crop list whose elements are all non-negative has fewer
than four elements, the crop handling indexes past the end of the list and
the acquisition aborts with an index-out-of-bounds panic (not an error
return, not a full-frame fallback); when the list has at least four
elements and all elements are non-negative, exactly the first four become
left, top, right, bottom; and if any element — at any position — is
negative, the crop is not applied and the box stays the full frame. -/
theorem C10_crop_list_indexing (d : D3D11TextureDesc) (env : DeviceEnv)
    (tm : Nat) (cf : ColorFormat) (xs : List Int)
    (hc : color_format_from_dxgi d.Format = .ok cf) :
    (xs.length < 4 → (∀ x ∈ xs, 0 ≤ x) →
      (acquireNextFrame (.frame d) env tm (some xs)).1
        = .panic .indexOutOfBounds)
    ∧ (∀ a b c e rest, xs = a :: b :: c :: e :: rest → (∀ x ∈ xs, 0 ≤ x) →
        applyArea (fullBox d) (some xs)
          = .ok { left := a.toNat, top := b.toNat, front := 0,
                  right := c.toNat, bottom := e.toNat, back := 1 })
    ∧ ((∃ x ∈ xs, x < 0) → applyArea (fullBox d) (some xs) = .ok (fullBox d)) := by
  refine ⟨fun hlen hnn => ?_, fun a b c e rest hxs hnn => ?_, fun hneg => ?_⟩
  · have hall : xs.all (fun x => decide (0 ≤ x)) = true := by
      rw [List.all_eq_true]
      intro x hx
      simpa using hnn x hx
    have ha : applyArea (fullBox d) (some xs) = .error .indexOutOfBounds := by
      obtain _ | ⟨a, _ | ⟨b, _ | ⟨c, _ | ⟨e, rest⟩⟩⟩⟩ := xs
      · simp [applyArea]
      · simp [applyArea, hall]
      · simp [applyArea, hall]
      · simp [applyArea, hall]
      · exfalso
        simp only [List.length_cons] at hlen
        omega
    simp [acquireNextFrame, hc, ha]
  · subst hxs
    have hall : (a :: b :: c :: e :: rest).all (fun x => decide (0 ≤ x)) = true := by
      rw [List.all_eq_true]
      intro x hx
      simpa using hnn x hx
    rw [applyArea_four (fullBox d) a b c e rest hall]
    rfl
  · exact applyArea_negative _ _ hneg

/-- Claim C10 witness: the two-element crop list [1, 2], all elements
non-negative, makes the acquisition abort with the index-out-of-bounds
panic on a supported-format frame. -/
theorem C10_crop_list_indexing_witness :
    (acquireNextFrame (.frame desc0) envOk 16 (some [1, 2])).1
      = .panic .indexOutOfBounds :=
  (C10_crop_list_indexing desc0 envOk 16 .Bgra8 [1, 2] rfl).1
    (by decide) (by decide)

/-- The teardown path is a no-op on an already-unmapped frame. -/
theorem dropFrame_unmapped (f : NativeDxgiDuplicationFrame)
    (h : f.mapped = false) : dropFrame f = (f, []) := by
  unfold dropFrame
  simp [h]

/-- Iterating the teardown path on an already-unmapped frame does nothing. -/
theorem dropTimes_unmapped (n : Nat) (f : NativeDxgiDuplicationFrame)
    (h : f.mapped = false) : dropTimes n f = (f, []) := by
  induction n with
  | zero => rfl
  | succ n ih =>
    unfold dropTimes
    simp [dropFrame_unmapped f h, ih]

/-- Claim C8: the release/teardown path on a mapped frame unmaps exactly
once, leaves buffer_len reading 0 and buffer_ptr reading the null pointer; a
second invocation is a no-op that changes nothing and issues no Unmap; and
across any number of invocations the staging texture is unmapped at most
once. -/
theorem C8_release_idempotent (f : NativeDxgiDuplicationFrame)
    (h : f.mapped = true) :
    (dropFrame f).2 = [.unmap]
    ∧ (dropFrame f).1.buffer_len = 0
    ∧ (dropFrame f).1.buffer_ptr = 0
    ∧ dropFrame (dropFrame f).1 = ((dropFrame f).1, [])
    ∧ ∀ n, ((dropTimes n f).2.count GpuOp.unmap) ≤ 1 := by
  have hd : dropFrame f
      = ({ f with mapped := false, ptr := 0, len := 0 }, [.unmap]) := by
    unfold dropFrame
    simp [h]
  refine ⟨by simp [hd],
          by simp [hd, NativeDxgiDuplicationFrame.buffer_len],
          by simp [hd, NativeDxgiDuplicationFrame.buffer_ptr],
          ?_, fun n => ?_⟩
  · rw [hd]
    exact dropFrame_unmapped _ rfl
  · cases n with
    | zero => simp [dropTimes]
    | succ n =>
      unfold dropTimes
      simp only [hd]
      rw [dropTimes_unmapped n _ rfl]
      simp [List.count_cons]

/-- Claim C8 witness: dropping the concrete mapped frame frame6 zeroes its
buffer length. -/
theorem C8_release_idempotent_witness : (dropFrame frame6).1.buffer_len = 0 :=
  (C8_release_idempotent frame6 rfl).2.1

/-- Claim C9 (amended): the pointer-based accessors perform no check of the
mapped flag (to_bytes is insensitive to it) and never produce a
use-after-release error — no such error exists in the code; instead, because
the teardown nulls the pointer and zeroes the length, a post-release
to_bytes returns the empty byte sequence, buffer_len returns 0 and
buffer_view succeeds with a zero-length view of the null pointer. -/
theorem C9_accessors_unguarded (f : NativeDxgiDuplicationFrame)
    (mem : Nat → Nat) (b : Bool) (h : f.mapped = true) :
    (dropFrame f).1.to_bytes mem = []
    ∧ (dropFrame f).1.buffer_len = 0
    ∧ (dropFrame f).1.buffer_view true = .ok (0, 0)
    ∧ NativeDxgiDuplicationFrame.to_bytes { f with mapped := b } mem
        = f.to_bytes mem := by
  have hd : dropFrame f
      = ({ f with mapped := false, ptr := 0, len := 0 }, [.unmap]) := by
    unfold dropFrame
    simp [h]
  refine ⟨by simp [hd, NativeDxgiDuplicationFrame.to_bytes],
          by simp [hd, NativeDxgiDuplicationFrame.buffer_len],
          ?_, by simp [NativeDxgiDuplicationFrame.to_bytes]⟩
  rw [hd]
  unfold NativeDxgiDuplicationFrame.buffer_view
  simp

/-- The concrete post-release frame state obtained by dropping frame6. -/
def frameReleased : NativeDxgiDuplicationFrame := (dropFrame frame6).1

/-- Claim C9 counterexample: on the concrete released frame, to_bytes
succeeds and returns the empty byte sequence and buffer_view succeeds with
a zero-length view — neither accessor fails with a use-after-release error
as the claim states (the source checks no validity flag and defines no such
error). -/
theorem C9_counterexample_post_release_success :
    frameReleased.mapped = false
    ∧ frameReleased.to_bytes (fun _ => 7) = ([] : List Nat)
    ∧ frameReleased.buffer_view true = .ok (0, 0) := ⟨rfl, rfl, rfl⟩

/-- Claim C9 witness: instantiating the amended theorem at frame6 — after
release, to_bytes of frame6 reads the empty sequence. -/
theorem C9_accessors_unguarded_witness :
    (dropFrame frame6).1.to_bytes (fun _ => 7) = [] :=
  (C9_accessors_unguarded frame6 (fun _ => 7) false rfl).1

end WindowsCapture
